import Mathlib

/-!
Shallow embedding of the webhook provisioning and authorization subsystem
(`src/provisioning/ProvisioningService.js`).

JavaScript semantics modelled explicitly:
  * object properties that may be absent become `Option`;
  * the source's truthiness tests (`if (!powerLevel)`, `if (!statePowerLevel)`,
    `powerLevels['users'] || {}`) treat both an absent property and the number
    `0` as falsy, so they are modelled by `isFalsy`;
  * `Promise.reject()` carries `undefined`, so the permission evaluator's
    observable outcome is a payload-free `HPResult`;
  * `.then(onOk, onErr)` on the permission promise maps any of its rejections
    to `PERMISSION_ERROR_MESSAGE`, while a rejection produced by `onOk`
    (the store call) propagates unchanged.
Calls made to the external collaborators (Room State Reader, Webhook Store)
are recorded as traces so that frame properties can be stated.
-/

/-- The fixed message from the `ProvisioningService` constructor. -/
def PERMISSION_ERROR_MESSAGE : String :=
  "User does not have permission to manage webhooks in this room"

/-- Content of an `m.room.power_levels` state event, restricted to the
properties the source reads.  Each property may be absent; `users` is an
association list standing for the JS object. -/
structure PowerLevels where
  users : Option (List (String × Int))
  users_default : Option Int
  state_default : Option Int
deriving Repr, DecidableEq

/-- JS truthiness test on a possibly-absent number: `!x` is true when the
property is absent (`undefined`) or equal to `0`. -/
def isFalsy : Option Int → Bool
  | none => true
  | some v => v == 0

/-- JS property lookup `obj[userId]` on the `users` object. -/
def lookupUser (users : List (String × Int)) (userId : String) : Option Int :=
  match users.find? (fun p => p.1 == userId) with
  | some p => some p.2
  | none => none

/-- Lines 75-79 of the source:
`const userPowerLevels = powerLevels['users'] || {};`
`let powerLevel = userPowerLevels[userId];`
`if (!powerLevel) powerLevel = powerLevels['users_default'];`
`if (!powerLevel) powerLevel = 0; // default` -/
def effectivePowerLevel (powerLevels : PowerLevels) (userId : String) : Int :=
  let userPowerLevels := powerLevels.users.getD []
  let powerLevel0 := lookupUser userPowerLevels userId
  let powerLevel1 := if isFalsy powerLevel0 then powerLevels.users_default else powerLevel0
  let powerLevel2 := if isFalsy powerLevel1 then some 0 else powerLevel1
  powerLevel2.getD 0

/-- Observable outcome of `hasPermission`: the promise either resolves or
rejects, and every rejection carries `undefined` (no payload at all), so the
two constructors are payload-free. -/
inductive HPResult
  | resolved
  | rejected
deriving Repr, DecidableEq

/-- Body of the `.then` callback of `hasPermission` (lines 70-91): given the
state event content returned by the reader (`none` models a falsy result,
hence the `!powerLevels` rejection), decide the outcome. -/
def checkPowerLevels (userId : String) : Option PowerLevels → HPResult
  | none => HPResult.rejected
  | some powerLevels =>
    let powerLevel := effectivePowerLevel powerLevels userId
    let statePowerLevel := powerLevels.state_default
    if isFalsy statePowerLevel then HPResult.rejected
    else if statePowerLevel.getD 0 ≤ powerLevel then HPResult.resolved
    else HPResult.rejected

/-- A call made to the Room State Reader. -/
inductive ReaderCall
  | getStateEvent (roomId eventType stateKey : String)
deriving Repr, DecidableEq

/-- The session handle: its client's `getStateEvent(roomId, type, key)`
returning the (possibly absent) event content. -/
structure Intent where
  getStateEvent : String → String → String → Option PowerLevels

/-- The service's process-wide state: the `this._intent` field, absent until
`setClient` has been called. -/
structure ProvisioningService where
  _intent : Option Intent

/-- Method `setClient(intent)`: binds (or rebinds) the session handle. -/
def ProvisioningService.setClient (svc : ProvisioningService) (intent : Intent) :
    ProvisioningService :=
  { svc with _intent := some intent }

/-- Method `hasPermission(userId, roomId)` (lines 64-92): rejects at once when
no intent is bound, otherwise fetches `m.room.power_levels` and decides.
Returns the observable promise outcome together with the trace of reader
calls made. -/
def ProvisioningService.hasPermission (svc : ProvisioningService)
    (userId roomId : String) : HPResult × List ReaderCall :=
  match svc._intent with
  | none => (HPResult.rejected, [])
  | some intent =>
    (checkPowerLevels userId (intent.getStateEvent roomId "m.room.power_levels" ""),
     [ReaderCall.getStateEvent roomId "m.room.power_levels" ""])

/-- A webhook record as minted by the store. -/
structure Webhook where
  id : String
  roomId : String
  userId : String
deriving Repr, DecidableEq

/-- The external Webhook Store, modelled as a spy: each operation returns
either its value or an arbitrary error (a rejected promise's reason). -/
structure WebhookStore where
  createWebhook : String → String → Except String Webhook
  listWebhooks : String → Except String (List Webhook)
  deleteWebhook : String → String → Except String Unit

/-- A call made to the Webhook Store. -/
inductive StoreCall
  | create (roomId userId : String)
  | list (roomId : String)
  | delete (roomId hookId : String)
deriving Repr, DecidableEq

/-- Method `createWebhook(roomId, userId)` (lines 26-30):
`hasPermission(...).then(() => WebhookStore.createWebhook(roomId, userId),`
`() => Promise.reject(this.PERMISSION_ERROR_MESSAGE))`.
Returns the promise outcome plus the traces of reader and store calls. -/
def ProvisioningService.createWebhook (svc : ProvisioningService)
    (store : WebhookStore) (roomId userId : String) :
    Except String Webhook × List ReaderCall × List StoreCall :=
  let hp := svc.hasPermission userId roomId
  match hp.1 with
  | HPResult.resolved =>
      (store.createWebhook roomId userId, hp.2, [StoreCall.create roomId userId])
  | HPResult.rejected =>
      (Except.error PERMISSION_ERROR_MESSAGE, hp.2, [])

/-- Method `getWebhooks(roomId, userId)` (lines 38-42). -/
def ProvisioningService.getWebhooks (svc : ProvisioningService)
    (store : WebhookStore) (roomId userId : String) :
    Except String (List Webhook) × List ReaderCall × List StoreCall :=
  let hp := svc.hasPermission userId roomId
  match hp.1 with
  | HPResult.resolved =>
      (store.listWebhooks roomId, hp.2, [StoreCall.list roomId])
  | HPResult.rejected =>
      (Except.error PERMISSION_ERROR_MESSAGE, hp.2, [])

/-- Method `deleteWebhook(roomId, userId, hookId)` (lines 51-55). -/
def ProvisioningService.deleteWebhook (svc : ProvisioningService)
    (store : WebhookStore) (roomId userId hookId : String) :
    Except String Unit × List ReaderCall × List StoreCall :=
  let hp := svc.hasPermission userId roomId
  match hp.1 with
  | HPResult.resolved =>
      (store.deleteWebhook roomId hookId, hp.2, [StoreCall.delete roomId hookId])
  | HPResult.rejected =>
      (Except.error PERMISSION_ERROR_MESSAGE, hp.2, [])

/-- Replay a trace of store calls against any interpretation of the store's
state: used to state that a rejected call leaves the store unchanged. -/
def applyStoreCalls {α : Type} (interp : α → StoreCall → α) (s : α)
    (calls : List StoreCall) : α :=
  calls.foldl interp s

/-- Convenience constructor for witnesses: a service whose bound session
returns the given content for every state read. -/
def mkService (content : Option PowerLevels) : ProvisioningService :=
  { _intent := some { getStateEvent := fun _ _ _ => content } }

/-- Service with no session bound. -/
def unboundService : ProvisioningService :=
  { _intent := none }

/-- The effective-level fallback chain exactly as the spec words it
(explicit per-user level when present, else `users_default` when present,
else 0), written to be compared with `effectivePowerLevel` from the source. -/
def specEffectiveLevel (powerLevels : PowerLevels) (userId : String) : Int :=
  match lookupUser (powerLevels.users.getD []) userId with
  | some v => v
  | none => powerLevels.users_default.getD 0

/-- A fake store whose operations all succeed, for concrete instantiations. -/
def fakeStore : WebhookStore where
  createWebhook := fun roomId userId => Except.ok ⟨"hook1", roomId, userId⟩
  listWebhooks := fun _ => Except.ok []
  deleteWebhook := fun _ _ => Except.ok ()

/-- A fake store whose operations all fail with a store-layer error. -/
def failingStore : WebhookStore where
  createWebhook := fun _ _ => Except.error "store down"
  listWebhooks := fun _ => Except.error "store down"
  deleteWebhook := fun _ _ => Except.error "store down"

/-- One concrete interpretation of store calls as updates to a list of
persisted records, for instantiating the frame property. -/
def interpStoreCall (s : List Webhook) : StoreCall → List Webhook
  | StoreCall.create roomId userId => s ++ [⟨"h" ++ toString s.length, roomId, userId⟩]
  | StoreCall.list _ => s
  | StoreCall.delete roomId hookId =>
      s.filter (fun w => !(w.roomId == roomId && w.id == hookId))

/-- Claim C1, counterexample: a snapshot that does contain a `state_default`
value, namely `0`, on which the effective level (`0`) is ≥ `state_default`,
yet `hasPermission` rejects — because the source tests `!statePowerLevel`,
which is true for the number `0`. -/
theorem hasPermission_rejects_zero_state_default :
    (⟨none, none, some 0⟩ : PowerLevels).state_default = some 0 ∧
    (0 : Int) ≤ effectivePowerLevel ⟨none, none, some 0⟩ "@u:h" ∧
    ((mkService (some ⟨none, none, some 0⟩)).hasPermission "@u:h" "!r:h").1
      = HPResult.rejected := by
  refine ⟨rfl, by decide, rfl⟩

/-- Claim C1 (amended): for every bound session and every snapshot that
contains a nonzero `state_default` value, `hasPermission` succeeds iff the
effective level is ≥ `state_default`; when the effective level is lower it
rejects, and the rejection (`HPResult.rejected`) carries no payload. -/
theorem hasPermission_iff_of_nonzero_state_default
    (svc : ProvisioningService) (intent : Intent) (userId roomId : String)
    (pl : PowerLevels) (s : Int)
    (hIntent : svc._intent = some intent)
    (hRead : intent.getStateEvent roomId "m.room.power_levels" "" = some pl)
    (hSd : pl.state_default = some s) (hNz : s ≠ 0) :
    (((svc.hasPermission userId roomId).1 = HPResult.resolved ↔
        s ≤ effectivePowerLevel pl userId) ∧
      (effectivePowerLevel pl userId < s →
        (svc.hasPermission userId roomId).1 = HPResult.rejected)) := by
  simp only [ProvisioningService.hasPermission, hIntent, hRead, checkPowerLevels,
    hSd, isFalsy, beq_iff_eq, hNz, if_false, Option.getD_some]
  constructor
  · by_cases hle : s ≤ effectivePowerLevel pl userId <;> simp [hle]
  · intro hlt
    have : ¬ s ≤ effectivePowerLevel pl userId := by omega
    simp [this]

theorem hasPermission_iff_of_nonzero_state_default_witness :
    ((((mkService (some ⟨some [("@a:h", 50)], none, some 50⟩)).hasPermission
          "@a:h" "!r:h").1 = HPResult.resolved ↔
        (50 : Int) ≤ effectivePowerLevel ⟨some [("@a:h", 50)], none, some 50⟩ "@a:h") ∧
      (effectivePowerLevel ⟨some [("@a:h", 50)], none, some 50⟩ "@a:h" < 50 →
        ((mkService (some ⟨some [("@a:h", 50)], none, some 50⟩)).hasPermission
          "@a:h" "!r:h").1 = HPResult.rejected)) :=
  hasPermission_iff_of_nonzero_state_default _ _ "@a:h" "!r:h" _ 50 rfl rfl rfl
    (by decide)

/-- Claim C2, counterexample: an explicit per-user level of `0` is NOT used
as-is — `!powerLevel` is true for `0`, so it falls through to
`users_default`.  Here the code computes `10` where the claimed chain
computes `0`. -/
theorem explicit_zero_level_falls_through :
    effectivePowerLevel ⟨some [("@u:h", 0)], some 10, some 10⟩ "@u:h" = 10 ∧
    specEffectiveLevel ⟨some [("@u:h", 0)], some 10, some 10⟩ "@u:h" = 0 := by
  decide

/-- Claim C2 (amended): the effective level equals the explicit per-user
entry when present and nonzero; a per-user entry of `0` (or an absent one)
falls through to `users_default`-or-`0` — and since an absent or zero
`users_default` both yield `0`, that fallback is exactly
`users_default.getD 0`. -/
theorem effectivePowerLevel_eq_nonzero_chain (pl : PowerLevels) (userId : String) :
    effectivePowerLevel pl userId =
      match lookupUser (pl.users.getD []) userId with
      | some v => if v = 0 then pl.users_default.getD 0 else v
      | none => pl.users_default.getD 0 := by
  unfold effectivePowerLevel
  cases h : lookupUser (pl.users.getD []) userId with
  | none => cases hd : pl.users_default with
    | none => simp [h, hd, isFalsy]
    | some d =>
      by_cases hd0 : d = 0 <;> simp [h, hd, isFalsy, hd0]
  | some v =>
    by_cases hv : v = 0
    · cases hd : pl.users_default with
      | none => simp [h, hd, isFalsy, hv]
      | some d =>
        by_cases hd0 : d = 0 <;> simp [h, hd, isFalsy, hv, hd0]
    · simp [h, isFalsy, hv]

/-- Claim C3, counterexample: the third §8 vector — user absent from `users`,
no `users_default`, `state_default` present as `0` — is DENIED by the code
(`!statePowerLevel` treats `0` as missing), not permitted as the spec says. -/
theorem third_vector_denied :
    ((mkService (some ⟨some [], none, some 0⟩)).hasPermission "@u:h" "!r:h").1
      = HPResult.rejected := by
  rfl

/-- Claim C3 (amended): the first two §8 vectors resolve as specified
(explicit 50 with `state_default` 50 → permitted; absent user with
`users_default` 10 and `state_default` 50 → denied), but the third — absent
user, no `users_default`, `state_default` 0 — is denied, because a
`state_default` of `0` is treated like a missing one. -/
theorem power_level_vectors :
    ((mkService (some ⟨some [("@u:h", 50)], some 10, some 50⟩)).hasPermission
        "@u:h" "!r:h").1 = HPResult.resolved ∧
    ((mkService (some ⟨some [], some 10, some 50⟩)).hasPermission
        "@u:h" "!r:h").1 = HPResult.rejected ∧
    ((mkService (some ⟨some [], none, some 0⟩)).hasPermission
        "@u:h" "!r:h").1 = HPResult.rejected := by
  refine ⟨by decide, by decide, rfl⟩

/-- Claim C4: whenever the permission check rejects — whatever the root cause
(no session, no power-level state, falsy `state_default`, insufficient
level) — each of the three operations rejects with exactly the one fixed
permission-error message, so this layer's result never distinguishes the
root causes. -/
theorem denied_ops_yield_fixed_message (svc : ProvisioningService)
    (store : WebhookStore) (roomId userId hookId : String)
    (h : (svc.hasPermission userId roomId).1 = HPResult.rejected) :
    (svc.createWebhook store roomId userId).1
        = Except.error PERMISSION_ERROR_MESSAGE ∧
    (svc.getWebhooks store roomId userId).1
        = Except.error PERMISSION_ERROR_MESSAGE ∧
    (svc.deleteWebhook store roomId userId hookId).1
        = Except.error PERMISSION_ERROR_MESSAGE := by
  simp [ProvisioningService.createWebhook, ProvisioningService.getWebhooks,
    ProvisioningService.deleteWebhook, h]

theorem denied_ops_yield_fixed_message_witness :
    ((mkService (some ⟨some [], some 1, some 50⟩)).createWebhook fakeStore
        "!r:h" "@u:h").1 = Except.error PERMISSION_ERROR_MESSAGE ∧
    ((mkService (some ⟨some [], some 1, some 50⟩)).getWebhooks fakeStore
        "!r:h" "@u:h").1 = Except.error PERMISSION_ERROR_MESSAGE ∧
    ((mkService (some ⟨some [], some 1, some 50⟩)).deleteWebhook fakeStore
        "!r:h" "@u:h" "hook1").1 = Except.error PERMISSION_ERROR_MESSAGE :=
  denied_ops_yield_fixed_message _ fakeStore "!r:h" "@u:h" "hook1" (by decide)

/-- Claim C5: when the permission check rejects, none of the three operations
makes any Webhook Store call, so replaying the (empty) call trace against any
interpretation of store state leaves that state unchanged. -/
theorem denied_ops_never_touch_store (svc : ProvisioningService)
    (store : WebhookStore) (roomId userId hookId : String)
    (α : Type) (interp : α → StoreCall → α) (s : α)
    (h : (svc.hasPermission userId roomId).1 = HPResult.rejected) :
    (svc.createWebhook store roomId userId).2.2 = [] ∧
    (svc.getWebhooks store roomId userId).2.2 = [] ∧
    (svc.deleteWebhook store roomId userId hookId).2.2 = [] ∧
    applyStoreCalls interp s (svc.createWebhook store roomId userId).2.2 = s ∧
    applyStoreCalls interp s (svc.getWebhooks store roomId userId).2.2 = s ∧
    applyStoreCalls interp s (svc.deleteWebhook store roomId userId hookId).2.2
      = s := by
  simp [ProvisioningService.createWebhook, ProvisioningService.getWebhooks,
    ProvisioningService.deleteWebhook, h, applyStoreCalls]

theorem denied_ops_never_touch_store_witness :
    ((mkService (some ⟨some [], some 1, some 50⟩)).createWebhook fakeStore
        "!r:h" "@u:h").2.2 = [] ∧
    ((mkService (some ⟨some [], some 1, some 50⟩)).getWebhooks fakeStore
        "!r:h" "@u:h").2.2 = [] ∧
    ((mkService (some ⟨some [], some 1, some 50⟩)).deleteWebhook fakeStore
        "!r:h" "@u:h" "hook1").2.2 = [] ∧
    applyStoreCalls interpStoreCall [⟨"h0", "!r:h", "@a:h"⟩]
      ((mkService (some ⟨some [], some 1, some 50⟩)).createWebhook fakeStore
        "!r:h" "@u:h").2.2 = [⟨"h0", "!r:h", "@a:h"⟩] ∧
    applyStoreCalls interpStoreCall [⟨"h0", "!r:h", "@a:h"⟩]
      ((mkService (some ⟨some [], some 1, some 50⟩)).getWebhooks fakeStore
        "!r:h" "@u:h").2.2 = [⟨"h0", "!r:h", "@a:h"⟩] ∧
    applyStoreCalls interpStoreCall [⟨"h0", "!r:h", "@a:h"⟩]
      ((mkService (some ⟨some [], some 1, some 50⟩)).deleteWebhook fakeStore
        "!r:h" "@u:h" "hook1").2.2 = [⟨"h0", "!r:h", "@a:h"⟩] :=
  denied_ops_never_touch_store _ fakeStore "!r:h" "@u:h" "hook1"
    (List Webhook) interpStoreCall [⟨"h0", "!r:h", "@a:h"⟩] (by decide)

/-- Claim C6: with no session bound, `hasPermission` and all three
operations reject immediately, with an empty Room State Reader trace and an
empty Webhook Store trace. -/
theorem unbound_ops_call_nothing (svc : ProvisioningService)
    (store : WebhookStore) (roomId userId hookId : String)
    (h : svc._intent = none) :
    svc.hasPermission userId roomId = (HPResult.rejected, []) ∧
    (svc.createWebhook store roomId userId).2.1 = [] ∧
    (svc.createWebhook store roomId userId).2.2 = [] ∧
    (svc.getWebhooks store roomId userId).2.1 = [] ∧
    (svc.getWebhooks store roomId userId).2.2 = [] ∧
    (svc.deleteWebhook store roomId userId hookId).2.1 = [] ∧
    (svc.deleteWebhook store roomId userId hookId).2.2 = [] := by
  simp [ProvisioningService.hasPermission, ProvisioningService.createWebhook,
    ProvisioningService.getWebhooks, ProvisioningService.deleteWebhook, h]

theorem unbound_ops_call_nothing_witness :
    unboundService.hasPermission "@u:h" "!r:h" = (HPResult.rejected, []) ∧
    (unboundService.createWebhook fakeStore "!r:h" "@u:h").2.1 = [] ∧
    (unboundService.createWebhook fakeStore "!r:h" "@u:h").2.2 = [] ∧
    (unboundService.getWebhooks fakeStore "!r:h" "@u:h").2.1 = [] ∧
    (unboundService.getWebhooks fakeStore "!r:h" "@u:h").2.2 = [] ∧
    (unboundService.deleteWebhook fakeStore "!r:h" "@u:h" "hook1").2.1 = [] ∧
    (unboundService.deleteWebhook fakeStore "!r:h" "@u:h" "hook1").2.2 = [] :=
  unbound_ops_call_nothing unboundService fakeStore "!r:h" "@u:h" "hook1" rfl

/-- Claim C7, counterexample: a caller CANNOT distinguish the no-session
outcome from the insufficient-level outcome.  At the evaluator layer both
reject with the payload-free `HPResult.rejected`, and at the operation layer
both reject with the very same fixed permission-error message. -/
theorem no_session_indistinguishable_from_denied :
    (unboundService.hasPermission "@u:h" "!r:h").1
      = ((mkService (some ⟨some [], some 1, some 50⟩)).hasPermission
          "@u:h" "!r:h").1 ∧
    (unboundService.createWebhook fakeStore "!r:h" "@u:h").1
      = Except.error PERMISSION_ERROR_MESSAGE ∧
    ((mkService (some ⟨some [], some 1, some 50⟩)).createWebhook fakeStore
        "!r:h" "@u:h").1 = Except.error PERMISSION_ERROR_MESSAGE :=
  ⟨rfl, rfl, rfl⟩

/-- Claim C7 (amended): the no-session failure is a distinct internal code
path — it rejects before any room-state read (empty reader trace) — but its
caller-visible outcome is identical to the insufficient-level outcome: the
same payload-free rejection from the evaluator and the same fixed message
from every operation. -/
theorem no_session_distinct_path_same_outcome
    (svc svcLow : ProvisioningService) (store : WebhookStore)
    (roomId userId roomIdL userIdL : String)
    (h : svc._intent = none)
    (hLow : (svcLow.hasPermission userIdL roomIdL).1 = HPResult.rejected) :
    (svc.hasPermission userId roomId).2 = [] ∧
    (svc.hasPermission userId roomId).1 = (svcLow.hasPermission userIdL roomIdL).1 ∧
    (svc.createWebhook store roomId userId).1
      = Except.error PERMISSION_ERROR_MESSAGE ∧
    (svcLow.createWebhook store roomIdL userIdL).1
      = Except.error PERMISSION_ERROR_MESSAGE := by
  have hsvc : svc.hasPermission userId roomId = (HPResult.rejected, []) := by
    simp [ProvisioningService.hasPermission, h]
  refine ⟨by rw [hsvc], by rw [hsvc, hLow], ?_, ?_⟩
  · simp [ProvisioningService.createWebhook, hsvc]
  · simp [ProvisioningService.createWebhook, hLow]

theorem no_session_distinct_path_same_outcome_witness :
    (unboundService.hasPermission "@u:h" "!r:h").2 = [] ∧
    (unboundService.hasPermission "@u:h" "!r:h").1
      = ((mkService (some ⟨some [], some 1, some 50⟩)).hasPermission
          "@v:h" "!s:h").1 ∧
    (unboundService.createWebhook fakeStore "!r:h" "@u:h").1
      = Except.error PERMISSION_ERROR_MESSAGE ∧
    ((mkService (some ⟨some [], some 1, some 50⟩)).createWebhook fakeStore
        "!s:h" "@v:h").1 = Except.error PERMISSION_ERROR_MESSAGE :=
  no_session_distinct_path_same_outcome unboundService _ fakeStore
    "!r:h" "@u:h" "!s:h" "@v:h" rfl (by decide)

/-- Claim C8: when the permission check resolves and the store operation
fails, the store's own error propagates to the caller unchanged — it is
never replaced by the fixed permission-error message — for all three
operations. -/
theorem store_errors_propagate_unchanged (svc : ProvisioningService)
    (store : WebhookStore) (roomId userId hookId : String) (e₁ e₂ e₃ : String)
    (hperm : (svc.hasPermission userId roomId).1 = HPResult.resolved)
    (h₁ : store.createWebhook roomId userId = Except.error e₁)
    (h₂ : store.listWebhooks roomId = Except.error e₂)
    (h₃ : store.deleteWebhook roomId hookId = Except.error e₃) :
    (svc.createWebhook store roomId userId).1 = Except.error e₁ ∧
    (svc.getWebhooks store roomId userId).1 = Except.error e₂ ∧
    (svc.deleteWebhook store roomId userId hookId).1 = Except.error e₃ := by
  simp [ProvisioningService.createWebhook, ProvisioningService.getWebhooks,
    ProvisioningService.deleteWebhook, hperm, h₁, h₂, h₃]

theorem store_errors_propagate_unchanged_witness :
    ((mkService (some ⟨some [], some 60, some 50⟩)).createWebhook failingStore
        "!r:h" "@u:h").1 = Except.error "store down" ∧
    ((mkService (some ⟨some [], some 60, some 50⟩)).getWebhooks failingStore
        "!r:h" "@u:h").1 = Except.error "store down" ∧
    ((mkService (some ⟨some [], some 60, some 50⟩)).deleteWebhook failingStore
        "!r:h" "@u:h" "hook1").1 = Except.error "store down" :=
  store_errors_propagate_unchanged _ failingStore "!r:h" "@u:h" "hook1"
    "store down" "store down" "store down" (by decide) rfl rfl rfl

/-- Claim C9: for every bound session and every snapshot that lacks a
`state_default` value, `hasPermission` rejects, and so all three operations
reject with the fixed message — never a silent default-permit. -/
theorem missing_state_default_rejects (svc : ProvisioningService)
    (intent : Intent) (store : WebhookStore) (roomId userId hookId : String)
    (pl : PowerLevels)
    (hIntent : svc._intent = some intent)
    (hRead : intent.getStateEvent roomId "m.room.power_levels" "" = some pl)
    (hSd : pl.state_default = none) :
    (svc.hasPermission userId roomId).1 = HPResult.rejected ∧
    (svc.createWebhook store roomId userId).1
        = Except.error PERMISSION_ERROR_MESSAGE ∧
    (svc.getWebhooks store roomId userId).1
        = Except.error PERMISSION_ERROR_MESSAGE ∧
    (svc.deleteWebhook store roomId userId hookId).1
        = Except.error PERMISSION_ERROR_MESSAGE := by
  have hp : (svc.hasPermission userId roomId).1 = HPResult.rejected := by
    simp [ProvisioningService.hasPermission, hIntent, hRead, checkPowerLevels,
      hSd, isFalsy]
  refine ⟨hp, ?_, ?_, ?_⟩ <;>
    simp [ProvisioningService.createWebhook, ProvisioningService.getWebhooks,
      ProvisioningService.deleteWebhook, hp]

theorem missing_state_default_rejects_witness :
    ((mkService (some ⟨some [("@u:h", 100)], some 100, none⟩)).hasPermission
        "@u:h" "!r:h").1 = HPResult.rejected ∧
    ((mkService (some ⟨some [("@u:h", 100)], some 100, none⟩)).createWebhook
        fakeStore "!r:h" "@u:h").1 = Except.error PERMISSION_ERROR_MESSAGE ∧
    ((mkService (some ⟨some [("@u:h", 100)], some 100, none⟩)).getWebhooks
        fakeStore "!r:h" "@u:h").1 = Except.error PERMISSION_ERROR_MESSAGE ∧
    ((mkService (some ⟨some [("@u:h", 100)], some 100, none⟩)).deleteWebhook
        fakeStore "!r:h" "@u:h" "hook1").1
      = Except.error PERMISSION_ERROR_MESSAGE :=
  missing_state_default_rejects _ _ fakeStore "!r:h" "@u:h" "hook1" _
    rfl rfl rfl

/-- Claim C10: when the snapshot lacks a `users` mapping entirely,
`hasPermission` does not fail for that reason: `powerLevels['users'] || {}`
makes it behave exactly as on an empty mapping, the effective level resolves
to `users_default`-or-`0`, and the authorization decision completes
normally on the rest of the snapshot. -/
theorem absent_users_behaves_as_empty (svc : ProvisioningService)
    (intent : Intent) (userId roomId : String) (pl : PowerLevels)
    (hIntent : svc._intent = some intent)
    (hRead : intent.getStateEvent roomId "m.room.power_levels" "" = some pl)
    (hUsers : pl.users = none) :
    effectivePowerLevel pl userId
        = effectivePowerLevel { pl with users := some [] } userId ∧
    effectivePowerLevel pl userId = pl.users_default.getD 0 ∧
    (svc.hasPermission userId roomId).1
        = checkPowerLevels userId (some { pl with users := some [] }) := by
  have h1 : effectivePowerLevel pl userId
      = effectivePowerLevel { pl with users := some [] } userId := by
    simp [effectivePowerLevel, hUsers]
  have h2 : effectivePowerLevel pl userId = pl.users_default.getD 0 := by
    unfold effectivePowerLevel
    cases hd : pl.users_default with
    | none => simp [hUsers, lookupUser, isFalsy, hd]
    | some d => by_cases hd0 : d = 0 <;> simp [hUsers, lookupUser, isFalsy, hd, hd0]
  refine ⟨h1, h2, ?_⟩
  simp [ProvisioningService.hasPermission, hIntent, hRead, checkPowerLevels, h1]

theorem absent_users_behaves_as_empty_witness :
    effectivePowerLevel ⟨none, some 25, some 50⟩ "@u:h"
        = effectivePowerLevel ⟨some [], some 25, some 50⟩ "@u:h" ∧
    effectivePowerLevel ⟨none, some 25, some 50⟩ "@u:h"
        = (some (25 : Int)).getD 0 ∧
    ((mkService (some ⟨none, some 25, some 50⟩)).hasPermission "@u:h" "!r:h").1
        = checkPowerLevels "@u:h" (some ⟨some [], some 25, some 50⟩) :=
  absent_users_behaves_as_empty _ _ "@u:h" "!r:h" ⟨none, some 25, some 50⟩
    rfl rfl rfl
